import Mathlib

/-!
Shallow embedding of the Dental-Chatbot Flask application (src/app.py).

The application state consists of the SQLite-backed dataset pointer
(table current_file), the persisted conversation log (table chat_history),
the in-memory parsed dataset cache (data_cache) and the uploads directory.
External collaborators (the answering engine get_chat_response, the JSON
parser json.loads, pandas.read_csv, werkzeug.secure_filename and the
matplotlib chart generator) are modelled as parameters, since their
internals live outside this repository.  The process-wide cancel flag
stop_execution_flag is read at two checkpoints inside /ask; the values it
happens to hold at those two reads are passed to the model as the booleans
flag1 and flag2, because a concurrent /stop_execution request is the only
way the flag can be true after the reset at the start of /ask.

Python str.format is embedded faithfully (pyFormat below), because the two
HTML page templates in /ask contain raw CSS braces that str.format treats
as replacement fields: the behaviour of the renderer hinges on it.
-/

set_option maxRecDepth 20000

namespace DentalChatbot

/-- One row of a parsed tabular dataset (a pandas DataFrame row in app.py). -/
abbrev Row := List String

/-- A parsed tabular dataset, the type of the in-memory cache data_cache. -/
abbrev Table := List Row

/-- One persisted row of the chat_history table: (id, message, response). -/
structure ChatRow where
  id : Nat
  message : String
  response : String
  deriving DecidableEq, Repr

/-- The state of the application: the current_file pointer (the SQLite
table holds at most one row because set_current_file deletes before it
inserts), the chat_history rows in physical insertion sequence, the cache
data_cache, and the uploads directory as an association list from file
name to raw file content. -/
structure AppState where
  currentFile : Option String
  chatHistory : List ChatRow
  dataCache : Option Table
  files : List (String × String)
  deriving DecidableEq, Repr

/-- Result of the JSON body produced by the /ask route: either the normal
payload written as jsonify with a response field, or the cancelled payload
jsonify with status stopped and response None. -/
inductive AskResult where
  | stopped
  | answer (response : String)
  deriving DecidableEq, Repr

/-- Result of the /upload route: a redirect to the index page. -/
inductive WebResponse where
  | redirectIndex
  deriving DecidableEq, Repr

/-- The value json.loads produces for the chart payload, restricted to the
three keys the code reads with chart_json.get; a missing key is none.
A parse failure, or a JSON value that is not an object (so that .get
raises), is modelled by the parser returning none. -/
structure ChartJson where
  labels : Option (List String)
  values : Option (List Int)
  title : Option String
  deriving DecidableEq, Repr

/-- External collaborators of the /ask pipeline: the answering engine
get_chat_response (which may raise), json.loads specialised to the chart
payload, and the matplotlib chart generation up to the base64 plot_url
(which may raise, e.g. when labels and values have different lengths). -/
structure AskEnv where
  engine : String → Table → List (String × String) → Except String String
  jsonParse : String → Option ChartJson
  makeChart : List String → List Int → String → Option String

/-- External collaborators of the /upload pipeline: pandas.read_csv (none
models a raised parse error) and werkzeug.utils.secure_filename. -/
structure UploadEnv where
  parseCSV : String → Option Table
  secure_filename : String → String

/-! ### Python string primitives used by app.py -/

/-- The remainder of s after sub, when sub is a prefix of s. -/
def dropSub : List Char → List Char → Option (List Char)
  | s, [] => some s
  | [], _ :: _ => none
  | c :: s, d :: sub => if c = d then dropSub s sub else none

/-- Scanner for Python str.split with a non-empty separator:
non-overlapping matches, scanned left to right.  The fuel is the number of
remaining characters plus one; every step consumes at least one. -/
def pySplitAux (sub : List Char) : Nat → List Char → String → List String
  | _, [], acc => [acc]
  | 0, _ :: _, acc => [acc]
  | fuel + 1, c :: rest, acc =>
    match dropSub (c :: rest) sub with
    | some rest2 => acc :: pySplitAux sub fuel rest2 ""
    | none => pySplitAux sub fuel rest (acc.push c)

/-- Python str.split with a separator, as used by response.split and (for
the last dot) rsplit in app.py. -/
def pySplit (s sub : String) : List String :=
  match sub.data with
  | [] => [s]
  | _ :: _ => pySplitAux sub.data (s.data.length + 1) s.data ""

/-- Python str.lower on the characters of the string. -/
def pyLower (s : String) : String := String.mk (s.data.map Char.toLower)

/-- Python substring containment, sub in s, for a non-empty sub: s splits
into at least two pieces at sub exactly when sub occurs in s. -/
def pyIn (sub s : String) : Bool := decide (2 ≤ (pySplit s sub).length)

/-- The opening curly brace character. -/
def lbrace : Char := Char.ofNat 123

/-- The closing curly brace character. -/
def rbrace : Char := Char.ofNat 125

/-- Keyword argument lookup for str.format. -/
def lookupArg (args : List (String × String)) (name : String) : Option String :=
  (args.find? (fun p => p.1 == name)).map (fun p => p.2)

/-- Skip a str.format format spec: consume characters up to the closing
brace of the replacement field, tracking nested braces. -/
def skipSpec : List Char → Nat → Option (List Char)
  | [], _ => none
  | c :: rest, d =>
    if c = rbrace then (if d = 0 then some rest else skipSpec rest (d - 1))
    else if c = lbrace then skipSpec rest (d + 1)
    else skipSpec rest d

/-- Parse the inside of a str.format replacement field (the part after the
opening brace): the field name runs up to a colon, an exclamation mark or
the closing brace; a colon starts a format spec that is skipped.  Returns
the field name and the remaining characters after the field. -/
def parseField : List Char → String → Except String (String × List Char)
  | [], _ => Except.error "ValueError: expected closing brace"
  | c :: rest, acc =>
    if c = rbrace then Except.ok (acc, rest)
    else if c = ':' then
      match skipSpec rest 0 with
      | some rest2 => Except.ok (acc, rest2)
      | none => Except.error "ValueError: unmatched brace in format spec"
    else if c = '!' then
      match rest with
      | _ :: c2 :: rest2 =>
        if c2 = rbrace then Except.ok (acc, rest2)
        else if c2 = ':' then
          match skipSpec rest2 0 with
          | some rest3 => Except.ok (acc, rest3)
          | none => Except.error "ValueError: unmatched brace in format spec"
        else Except.error "ValueError: invalid conversion"
      | _ => Except.error "ValueError: invalid conversion"
    else if c = lbrace then Except.error "ValueError: unexpected brace in field name"
    else parseField rest (acc.push c)

/-- Main loop of the str.format embedding.  Doubled braces are literal
braces; an opening brace starts a replacement field whose name is looked
up among the keyword arguments (a missing name raises KeyError, as CPython
does); a lone closing brace raises.  The fuel is the number of remaining
characters plus one, which every step strictly decreases. -/
def pyFormatAux (args : List (String × String)) : Nat → List Char → String → Except String String
  | _, [], acc => Except.ok acc
  | 0, _ :: _, _ => Except.error "ValueError: fuel exhausted"
  | fuel + 1, c :: rest, acc =>
    if c = lbrace then
      match rest with
      | c2 :: rest2 =>
        if c2 = lbrace then pyFormatAux args fuel rest2 (acc.push lbrace)
        else
          match parseField rest "" with
          | Except.error e => Except.error e
          | Except.ok (name, rest3) =>
            match lookupArg args name with
            | some v => pyFormatAux args fuel rest3 (acc ++ v)
            | none => Except.error ("KeyError: " ++ name)
      | [] => Except.error "ValueError: expected closing brace"
    else if c = rbrace then
      match rest with
      | c2 :: rest2 =>
        if c2 = rbrace then pyFormatAux args fuel rest2 (acc.push rbrace)
        else Except.error "ValueError: single closing brace"
      | [] => Except.error "ValueError: single closing brace"
    else pyFormatAux args fuel rest (acc.push c)

/-- Python str.format with keyword arguments, as used on the two HTML
templates of /ask. -/
def pyFormat (tpl : String) (args : List (String × String)) : Except String String :=
  pyFormatAux args (tpl.data.length + 1) tpl.data ""

/-- clean_html from app.py: strip every line, drop blank lines, rejoin. -/
def clean_html (html_content : String) : String :=
  let lines := (pySplit html_content "\n").map String.trim
  let lines := lines.filter (fun l => !(l == ""))
  String.intercalate "\n" lines

/-! ### The two HTML templates of /ask, transcribed verbatim.
Curly braces are written with their hexadecimal escapes; they are the very
characters the CSS blocks of the templates contain. -/

/-- table_template from the table branch of /ask. -/
def table_template : String := "<!DOCTYPE html>
<html>
<head>
<title>Patient Data Table</title>
<meta name=\"viewport\" content=\"width=device-width, initial-scale=1.0\">
<style>
body \x7b
font-family: Arial, sans-serif;
margin: 0;
padding: 20px;
background-color: #f5f5f5;
\x7d
.container \x7b
max-width: 1200px;
margin: 0 auto;
background-color: white;
padding: 20px;
border-radius: 8px;
box-shadow: 0 2px 10px rgba(0,0,0,0.1);
\x7d
.table-container \x7b
overflow-x: auto;
\x7d
table \x7b
width: 100%;
border-collapse: collapse;
margin-top: 20px;
\x7d
th, td \x7b
border: 1px solid #ddd;
padding: 12px;
text-align: left;
\x7d
th \x7b
background-color: #f2f2f2;
font-weight: bold;
\x7d
tr:nth-child(even) \x7b
background-color: #f9f9f9;
\x7d
tr:hover \x7b
background-color: #f1f1f1;
\x7d
</style>
</head>
<body>
<div class=\"container\">
<div class=\"table-container\">
\x7bresponse\x7d
</div>
</div>
</body>
</html>"

/-- chart_template from the chart branch of /ask. -/
def chart_template : String := "<!DOCTYPE html>
<html>
<head>
<title>\x7btitle\x7d</title>
<meta name=\"viewport\" content=\"width=device-width, initial-scale=1.0\">
<style>
body \x7b
font-family: Arial, sans-serif;
margin: 0;
padding: 20px;
background-color: #f5f5f5;
\x7d
.container \x7b
max-width: 1200px;
margin: 0 auto;
background-color: white;
padding: 20px;
border-radius: 8px;
box-shadow: 0 2px 10px rgba(0,0,0,0.1);
\x7d
h1 \x7b
color: #333;
text-align: center;
margin-bottom: 20px;
\x7d
.chart-container \x7b
text-align: center;
margin-top: 20px;
\x7d
.chart-container img \x7b
max-width: 100%;
height: auto;
border: 1px solid #ddd;
border-radius: 4px;
\x7d
</style>
</head>
<body>
<div class=\"container\">
<h1>\x7btitle\x7d</h1>
<div class=\"chart-container\">
<img src=\"data:image/png;base64,\x7bplot_url\x7d\" alt=\"\x7btitle\x7d\">
</div>
</div>
</body>
</html>"

/-! ### Persistent stores and file system -/

/-- Lookup of a file in the uploads directory. -/
def fsGet (fs : List (String × String)) (name : String) : Option String :=
  (fs.find? (fun p => p.1 == name)).map (fun p => p.2)

/-- Writing a file into the uploads directory (file.save overwrites; the
new binding shadows any older one under lookup). -/
def fsWrite (fs : List (String × String)) (name content : String) : List (String × String) :=
  (name, content) :: fs

/-- get_current_file from app.py: the single pointer row, newest first. -/
def get_current_file (s : AppState) : Option String := s.currentFile

/-- set_current_file from app.py: DELETE then INSERT, so the table always
holds exactly the one new pointer afterwards. -/
def set_current_file (s : AppState) (filename : String) : AppState :=
  { s with currentFile := some filename }

/-- The rowid SQLite assigns to a fresh chat_history insert: one more than
the largest existing id. -/
def nextId (l : List ChatRow) : Nat := (l.map (fun r => r.id)).foldr max 0 + 1

/-- Comparison by id, the ORDER BY id ASC ordering. -/
def idLe (a b : ChatRow) : Prop := a.id ≤ b.id

instance : DecidableRel idLe := fun a b => inferInstanceAs (Decidable (a.id ≤ b.id))

/-- SELECT message, response FROM chat_history ORDER BY id ASC: the rows
sorted by their id. -/
def orderById (l : List ChatRow) : List ChatRow := List.insertionSort idLe l

/-- The physical insertion sequence of the log, projected to the
(message, response) pairs: the creation order of the entries. -/
def insertion_order_read (s : AppState) : List (String × String) :=
  s.chatHistory.map (fun r => (r.message, r.response))

/-- The chat_history read of /ask (app.py line 148): ORDER BY id ASC. -/
def ask_history_read (s : AppState) : List (String × String) :=
  (orderById s.chatHistory).map (fun r => (r.message, r.response))

/-- The chat_history read of the index route (app.py line 125): a SELECT
with no ORDER BY clause.  SQL leaves the row order of such a query to the
engine, so the read is parameterised by the order sigma the engine
chooses; any function returning a permutation of the stored rows is a
conforming choice. -/
def index_history_read (sigma : List ChatRow → List ChatRow) (s : AppState) : List (String × String) :=
  (sigma s.chatHistory).map (fun r => (r.message, r.response))

/-- The ids of the stored rows are strictly increasing along the physical
insertion sequence: SQLite assigns each insert a fresh largest id. -/
def IdsSorted (l : List ChatRow) : Prop := l.Pairwise (fun a b => a.id < b.id)

instance (l : List ChatRow) : Decidable (IdsSorted l) :=
  inferInstanceAs (Decidable (l.Pairwise _))

/-! ### Dataset loading and bootstrap -/

/-- load_data from app.py: read the pointer; if it is set, the file exists
and pandas parses it, publish the parse under the lock; otherwise publish
none.  Failures never escape load_data. -/
def load_data (env : UploadEnv) (s : AppState) : AppState :=
  match get_current_file s with
  | none => { s with dataCache := none }
  | some current_file =>
    match fsGet s.files current_file with
    | none => { s with dataCache := none }
    | some content =>
      match env.parseCSV content with
      | none => { s with dataCache := none }
      | some df => { s with dataCache := some df }

/-- The basename of STATIC_CSV.  Line 87 of app.py points STATIC_CSV at
uploads/patient_details2.csv, inside the very uploads folder the seed is
copied to, so within the model of that folder the seed source is this
name. -/
def STATIC_CSV : String := "patient_details2.csv"

/-- shutil.copy: copying a path onto itself raises SameFileError before
anything is written; copying a missing source raises; otherwise the
destination is written with the content of the source. -/
def shutil_copy (fs : List (String × String)) (src dst : String) : Except String (List (String × String)) :=
  if src = dst then Except.error "SameFileError"
  else
    match fsGet fs src with
    | none => Except.error "FileNotFoundError"
    | some content => Except.ok (fsWrite fs dst content)

/-- bootstrap_dataset from app.py.  needs_seed holds when there is no
pointer or the pointed-to file is missing; the seed is copied to
dest = join(UPLOAD_FOLDER, basename(STATIC_CSV)), which is the same path
as STATIC_CSV itself.  An error return models the exception escaping to
the module-level try, which only logs it, leaving the state unchanged. -/
def bootstrap_dataset (s : AppState) : Except String AppState :=
  let current := get_current_file s
  let needs_seed :=
    match current with
    | none => true
    | some c => (fsGet s.files c).isNone
  if needs_seed then
    if (fsGet s.files STATIC_CSV).isSome then
      match shutil_copy s.files STATIC_CSV STATIC_CSV with
      | Except.error e => Except.error e
      | Except.ok fs2 => Except.ok (set_current_file { s with files := fs2 } STATIC_CSV)
    else Except.ok s
  else Except.ok s

/-! ### Upload route -/

/-- The allowed upload extensions of app.py. -/
def ALLOWED_EXTENSIONS : List String := ["csv", "db"]

/-- allowed_file from app.py: the name contains a dot and the part after
the last dot, lowercased, is an allowed extension. -/
def allowed_file (filename : String) : Bool :=
  pyIn "." filename &&
    ALLOWED_EXTENSIONS.contains (pyLower ((pySplit filename ".").getLastD ""))

/-- upload_file from app.py.  The file argument is the multipart field:
none when the field is absent from the request; the werkzeug FileStorage
is truthy exactly when its filename is non-empty.  On an accepted file the
secured name is saved, the pointer is replaced, the cache reloaded, and
chat_history emptied; every path ends in a redirect to the index page. -/
def upload_file (env : UploadEnv) (file : Option (String × String)) (s : AppState) : AppState × WebResponse :=
  match file with
  | none => (s, WebResponse.redirectIndex)
  | some (fname, content) =>
    if fname ≠ "" ∧ allowed_file fname = true then
      let filename := env.secure_filename fname
      let s1 := { s with files := fsWrite s.files filename content }
      let s2 := set_current_file s1 filename
      let s3 := load_data env s2
      let s4 := { s3 with chatHistory := [] }
      (s4, WebResponse.redirectIndex)
    else (s, WebResponse.redirectIndex)

/-! ### The /ask pipeline -/

/-- The fixed warning /ask returns when the cache holds no table. -/
def noDataWarning : String := "⚠ No file uploaded or data loaded. Please upload a CSV first."

/-- The substring /ask feeds to json.loads in the chart branch:
response.split with the marker, element 1, stripped. -/
def chartPayload (raw : String) : String :=
  ((pySplit raw "CHART_DATA:").getD 1 "").trim

/-- The response classification and rendering step of /ask (lines
179-351): the table check first, then the chart marker, else plain text.
Each rendering branch is wrapped in a try whose handler returns the raw
response, so a raised str.format, json.loads or matplotlib call degrades
to the unrendered answer. -/
def renderResponse (env : AskEnv) (response : String) : String :=
  if pyIn "<table" response then
    match pyFormat table_template [("response", response)] with
    | Except.ok t => clean_html t
    | Except.error _ => response
  else if pyIn "CHART_DATA:" response then
    match env.jsonParse (chartPayload response) with
    | none => response
    | some cj =>
      let labels := cj.labels.getD []
      let values := cj.values.getD []
      let title := cj.title.getD "Chart"
      match env.makeChart labels values title with
      | none => response
      | some plot_url =>
        match pyFormat chart_template [("title", title), ("plot_url", plot_url)] with
        | Except.ok t => clean_html t
        | Except.error _ => response
  else response

/-- The /ask route.  flag1 and flag2 are the values the process-wide
cancel flag holds at its two reads (lines 151 and 166); the flag is reset
to false when the request starts, so a true value records a concurrent
/stop_execution.  The pipeline: cache read; fixed warning when empty;
history read; first cancel checkpoint; engine call (an engine exception
becomes an in-band error string); second cancel checkpoint; history
append; classification and rendering. -/
def ask (env : AskEnv) (flag1 flag2 : Bool) (user_input : String) (s : AppState) : AppState × AskResult :=
  match s.dataCache with
  | none => (s, AskResult.answer noDataWarning)
  | some df =>
    let session_history := ask_history_read s
    if flag1 then (s, AskResult.stopped)
    else
      match env.engine user_input df session_history with
      | Except.error e => (s, AskResult.answer ("Error getting response: " ++ e))
      | Except.ok response =>
        if flag2 then (s, AskResult.stopped)
        else
          let s1 := { s with
            chatHistory := s.chatHistory ++ [⟨nextId s.chatHistory, user_input, response⟩] }
          (s1, AskResult.answer (renderResponse env response))

/-- The /stop_execution route: sets the process-wide cancel flag. -/
def stop_execution (_flag : Bool) : Bool := true

/-! ### Concrete environments and states used to instantiate theorems -/

/-- A concrete environment for the /ask pipeline. -/
def askEnv0 : AskEnv :=
  { engine := fun _ _ _ => Except.ok "fine",
    jsonParse := fun _ => none,
    makeChart := fun _ _ _ => none }

/-- A concrete environment for the /upload pipeline: the parser wraps the
raw content in a one-cell table; the name sanitiser keeps plain names. -/
def uploadEnv0 : UploadEnv :=
  { parseCSV := fun c => some [[c]], secure_filename := fun n => n }

/-- A state with a loaded dataset and an empty log. -/
def askState0 : AppState :=
  { currentFile := some "patients.csv", chatHistory := [],
    dataCache := some [["x"]], files := [("patients.csv", "x")] }

/-- The state before any upload: nothing loaded. -/
def noDataState : AppState :=
  { currentFile := none, chatHistory := [], dataCache := none, files := [] }

/-- A state with a two-entry conversation log. -/
def c7_state : AppState :=
  { currentFile := none, dataCache := none, files := [],
    chatHistory := [⟨1, "q1", "a1"⟩, ⟨2, "q2", "a2"⟩] }

/-- The startup state that triggers seeding: no pointer, while the seed
file is present in the uploads folder (where line 87 of app.py puts
STATIC_CSV). -/
def c8_state : AppState :=
  { currentFile := none, chatHistory := [], dataCache := none,
    files := [(STATIC_CSV, "id,name\n1,alice")] }

/-- An engine output containing both a table tag and the chart marker. -/
def c3_raw : String :=
  "<table><tr><td>1</td></tr></table> CHART_DATA: \x7b\"labels\": [\"A\"], \"values\": [1], \"title\": \"T\"\x7d"

/-! ### Helper lemmas -/

/-- str.format raises on table_template for every response argument: the
first replacement field it meets is the CSS block opened after the word
body, whose field name is the newline followed by font-family, and that
keyword is not among the arguments, so CPython raises KeyError before the
response field is ever reached. -/
theorem pyFormat_table_template (r : String) :
    pyFormat table_template [("response", r)] = Except.error "KeyError: \nfont-family" := rfl

/-- str.format raises on chart_template for every title and plot_url: the
title field of the page title substitutes, but the next field is the CSS
block after the word body, and its name is not an argument. -/
theorem pyFormat_chart_template (t u : String) :
    pyFormat chart_template [("title", t), ("plot_url", u)] = Except.error "KeyError: \nfont-family" := rfl

/-- The classification and rendering step maps every engine output to
itself: the table branch and the chart branch both end in str.format on a
template whose CSS braces make it raise, the handlers return the raw
response, and the plain-text branch returns it directly. -/
theorem renderResponse_eq_id (env : AskEnv) (raw : String) :
    renderResponse env raw = raw := by
  unfold renderResponse
  split
  · rw [pyFormat_table_template]
  · split
    · cases hj : env.jsonParse (chartPayload raw) with
      | none => rfl
      | some cj =>
        cases hm : env.makeChart (cj.labels.getD []) (cj.values.getD []) (cj.title.getD "Chart") with
        | none => simp [hj, hm]
        | some plot_url => simp [hj, hm, pyFormat_chart_template]
    · rfl

/-- A freshly written file is read back with its content. -/
theorem fsGet_fsWrite (fs : List (String × String)) (n c : String) :
    fsGet (fsWrite fs n c) n = some c := by
  simp [fsGet, fsWrite]

/-! ### Claim theorems -/

/-- C1: whenever the cancel flag is observed set at either checkpoint of
/ask — at the first checkpoint, or at the second checkpoint which is only
reached when the engine returned normally — the request answers with the
stopped status and a null response and the whole state, in particular the
chat_history log, is unchanged. -/
theorem ask_cancelled_stops_and_preserves_log (env : AskEnv) (flag1 flag2 : Bool)
    (msg : String) (s : AppState) (df : Table)
    (hdf : s.dataCache = some df)
    (hflag : flag1 = true ∨
      (flag2 = true ∧ ∃ r, env.engine msg df (ask_history_read s) = Except.ok r)) :
    ask env flag1 flag2 msg s = (s, AskResult.stopped) := by
  rcases hflag with h1 | ⟨h2, r, hr⟩
  · simp [ask, hdf, h1]
  · cases flag1 <;> simp [ask, hdf, hr, h2]

/-- C1 witness: a concrete request whose first checkpoint observes the
value the /stop_execution route wrote. -/
theorem ask_cancelled_witness :
    ask askEnv0 (stop_execution false) false "How many patients?" askState0
      = (askState0, AskResult.stopped) :=
  ask_cancelled_stops_and_preserves_log askEnv0 (stop_execution false) false
    "How many patients?" askState0 [["x"]] rfl (Or.inl rfl)

/-- C2: when the dataset cache holds no table, /ask answers with exactly
the fixed warning string and leaves the state unchanged; the environment,
and with it the answering engine, is arbitrary and never influences the
result, so get_chat_response is not invoked. -/
theorem ask_no_data_warns (env : AskEnv) (flag1 flag2 : Bool) (msg : String)
    (s : AppState) (h : s.dataCache = none) :
    ask env flag1 flag2 msg s = (s, AskResult.answer noDataWarning) := by
  simp [ask, h]

/-- C2 witness: the warning on the empty initial state. -/
theorem ask_no_data_witness :
    ask askEnv0 false false "hello" noDataState
      = (noDataState, AskResult.answer noDataWarning) :=
  ask_no_data_warns askEnv0 false false "hello" noDataState rfl

/-- C3: on an engine output containing both the table tag and the chart
marker the table check fires first and the chart machinery of the
environment is never consulted — but the table wrapping itself raises
KeyError inside str.format, because the CSS braces of table_template are
unescaped replacement fields, so the final payload is the raw output, not
the template-wrapped document the claim describes. -/
theorem table_priority_but_format_error_falls_back :
    pyIn "<table" c3_raw = true ∧ pyIn "CHART_DATA:" c3_raw = true ∧
    pyFormat table_template [("response", c3_raw)] = Except.error "KeyError: \nfont-family" ∧
    ∀ env : AskEnv, renderResponse env c3_raw = c3_raw :=
  ⟨by decide, by decide, pyFormat_table_template c3_raw,
    fun env => renderResponse_eq_id env c3_raw⟩

/-- C4: when the engine output carries the chart marker, no table tag, and
the text extracted after the marker does not parse as JSON, the chart
branch raises internally, the handler catches it, and the final payload is
the raw output unchanged. -/
theorem chart_bad_json_returns_raw (env : AskEnv) (raw : String)
    (h1 : pyIn "<table" raw = false) (h2 : pyIn "CHART_DATA:" raw = true)
    (h3 : env.jsonParse (chartPayload raw) = none) :
    renderResponse env raw = raw := by
  simp [renderResponse, h1, h2, h3]

/-- C4 witness: malformed JSON after the marker is returned unchanged. -/
theorem chart_bad_json_witness :
    renderResponse askEnv0 "CHART_DATA: this is not json"
      = "CHART_DATA: this is not json" :=
  chart_bad_json_returns_raw askEnv0 "CHART_DATA: this is not json"
    (by decide) (by decide) rfl

/-- C5: a valid upload — non-empty allowed filename that the sanitiser
keeps and content the CSV parser accepts as the table t — leaves the
pointer at the uploaded filename and the cache holding exactly the parse
of the uploaded content. -/
theorem upload_sets_pointer_and_cache (env : UploadEnv) (fname content : String)
    (t : Table) (s : AppState)
    (hname : fname ≠ "") (hallow : allowed_file fname = true)
    (hsec : env.secure_filename fname = fname)
    (hparse : env.parseCSV content = some t) :
    get_current_file (upload_file env (some (fname, content)) s).1 = some fname ∧
    ((upload_file env (some (fname, content)) s).1).dataCache = some t := by
  simp [upload_file, load_data, get_current_file, set_current_file,
    hsec, fsGet_fsWrite, hparse, hname, hallow]

/-- C5 witness: a concrete CSV upload. -/
theorem upload_sets_pointer_and_cache_witness :
    get_current_file (upload_file uploadEnv0 (some ("data.csv", "a,b")) noDataState).1
      = some "data.csv" ∧
    ((upload_file uploadEnv0 (some ("data.csv", "a,b")) noDataState).1).dataCache
      = some [["a,b"]] :=
  upload_sets_pointer_and_cache uploadEnv0 "data.csv" "a,b" [["a,b"]] noDataState
    (by decide) (by decide) rfl rfl

/-- C6: a successful upload of an allowed file leaves chat_history empty,
whatever the prior log was. -/
theorem upload_clears_chat_history (env : UploadEnv) (fname content : String)
    (s : AppState) (hname : fname ≠ "") (hallow : allowed_file fname = true) :
    ((upload_file env (some (fname, content)) s).1).chatHistory = [] := by
  simp [upload_file, hname, hallow]

/-- C6 witness: uploading over a two-entry log empties it. -/
theorem upload_clears_chat_history_witness :
    ((upload_file uploadEnv0 (some ("new.csv", "c1")) c7_state).1).chatHistory = [] :=
  upload_clears_chat_history uploadEnv0 "new.csv" "c1" c7_state (by decide) (by decide)

/-- C7 counterexample: the claim that every log read returns insertion
order fails for the index read, whose SELECT has no ORDER BY clause: a
conforming engine order — here, reversal, a permutation of the stored
rows — makes the page-render read differ from creation order on a
two-entry log. -/
theorem index_read_order_not_guaranteed :
    ¬ (∀ sigma : List ChatRow → List ChatRow, (∀ l, List.Perm (sigma l) l) →
        ∀ s : AppState, IdsSorted s.chatHistory →
          index_history_read sigma s = insertion_order_read s) := by
  intro h
  have h2 := h (fun l => l.reverse) (fun l => l.reverse_perm) c7_state (by decide)
  revert h2
  decide

/-- C7 amended: the /ask session-history read, which orders by id,
returns the entries in insertion order; the page-render read, whose
SELECT carries no ORDER BY, is only guaranteed to return a permutation of
the entries. -/
theorem chat_reads_ordered (sigma : List ChatRow → List ChatRow)
    (hsigma : ∀ l, List.Perm (sigma l) l) (s : AppState)
    (hs : IdsSorted s.chatHistory) :
    ask_history_read s = insertion_order_read s ∧
    List.Perm (index_history_read sigma s) (insertion_order_read s) := by
  constructor
  · have hsorted : List.Sorted idLe s.chatHistory :=
      hs.imp (fun h => Nat.le_of_lt h)
    unfold ask_history_read insertion_order_read orderById
    rw [hsorted.insertionSort_eq]
  · exact (hsigma s.chatHistory).map _

/-- C7 witness: both reads on a concrete two-entry log, with the identity
as the engine order of the unordered SELECT. -/
theorem chat_reads_ordered_witness :
    ask_history_read c7_state = insertion_order_read c7_state ∧
    List.Perm (index_history_read (fun l => l) c7_state) (insertion_order_read c7_state) :=
  chat_reads_ordered (fun l => l) (fun l => List.Perm.refl l) c7_state (by decide)

/-- C8: at a startup state where seeding is required (no pointer) and the
seed file is present, bootstrap_dataset does not set the pointer: because
line 87 of app.py points STATIC_CSV into the uploads folder, the copy
destination equals the source and shutil.copy raises SameFileError, which
escapes to the module-level handler that only logs it. -/
theorem bootstrap_seed_same_file_error :
    c8_state.currentFile = none ∧
    (fsGet c8_state.files STATIC_CSV).isSome = true ∧
    bootstrap_dataset c8_state = Except.error "SameFileError" :=
  ⟨rfl, rfl, rfl⟩

/-- C9: the classification and rendering step is a pure function of the
raw engine output: two invocations on the same raw string yield identical
final payloads, even across different states of the external collaborators
(JSON parser, chart generator, engine). -/
theorem render_deterministic (env1 env2 : AskEnv) (raw : String) :
    renderResponse env1 raw = renderResponse env2 raw := by
  rw [renderResponse_eq_id, renderResponse_eq_id]

/-- C10: an upload request whose file field is missing, or whose filename
has no dot or an extension outside the allowed set (compared lowercased,
as allowed_file does), changes nothing — pointer, cache, log and stored
files are all as before — and answers with the redirect to the index
page. -/
theorem upload_invalid_is_noop (env : UploadEnv) (file : Option (String × String))
    (s : AppState)
    (h : file = none ∨ ∃ fn c, file = some (fn, c) ∧
      (pyIn "." fn = false ∨
        ALLOWED_EXTENSIONS.contains (pyLower ((pySplit fn ".").getLastD "")) = false)) :
    upload_file env file s = (s, WebResponse.redirectIndex) := by
  rcases h with h | ⟨fn, c, hf, hext⟩
  · subst h; rfl
  · subst hf
    have hal : allowed_file fn = false := by
      unfold allowed_file
      rcases hext with h1 | h1
      · rw [h1, Bool.false_and]
      · rw [h1, Bool.and_false]
    simp [upload_file, hal]

/-- C10 witness: a txt upload is rejected without any state change. -/
theorem upload_invalid_is_noop_witness :
    upload_file uploadEnv0 (some ("report.txt", "hello")) c7_state
      = (c7_state, WebResponse.redirectIndex) :=
  upload_invalid_is_noop uploadEnv0 (some ("report.txt", "hello")) c7_state
    (Or.inr ⟨"report.txt", "hello", rfl, Or.inr (by decide)⟩)

end DentalChatbot
